import Mathlib

/-!
Verification development for the AstroStep focuser driver
(src/cmake_modules/indi_astrostep.cpp, src/indi_astrostep.h).

The driver is shallowly embedded as follows.
Serial exchanges are modelled by a script: a list of per-command outcomes,
one entry consumed by each sendCommand call, where none models a transport
failure and some res models a successful exchange whose read-back payload
is res.  Every operation returns an Out record: its return value, the
updated driver state, the list of commands written to the wire (in order),
the list of upstream property publications (IDSetNumber / IDSetSwitch
calls), and the remaining script.  Doubles that the source only ever holds
integer values in (positions, the truncated temperature) are modelled as
Int; machine-integer conversions are modelled explicitly where they matter.
-/

namespace AstroStep

abbrev Chars := List Char

/-- IPState values of the INDI property state machine, as used by the driver. -/
inductive IPState where
  | IPS_IDLE
  | IPS_OK
  | IPS_BUSY
  | IPS_ALERT
deriving DecidableEq, Repr

/-- FocusDirection as in the INDI focuser interface. -/
inductive FocusDirection where
  | FOCUS_INWARD
  | FOCUS_OUTWARD
deriving DecidableEq, Repr

/-- CoilPower enum from indi_astrostep.h. -/
inductive CoilPower where
  | COIL_POWER_OFF
  | COIL_POWER_ON
deriving DecidableEq, Repr

def CoilPower.toNat : CoilPower → Nat
  | CoilPower.COIL_POWER_OFF => 0
  | CoilPower.COIL_POWER_ON => 1

/-- Upstream publications (IDSetNumber / IDSetSwitch calls) the driver makes. -/
inductive Event where
  | reportAbsPos
  | reportRelPos
  | reportTimer
  | reportTemperature
  | reportGotoHome
  | reportTemperatureSetting
deriving DecidableEq, Repr

/-- The driver state the claims depend on: the INDI number/switch values and
the private members lastPos, lastTemperature, targetPos.  Positions and the
(truncated, hence integer-valued) temperature are doubles in the source that
only ever hold integers here, modelled as Int. -/
structure DriverState where
  focusAbsPosValue : Int
  focusAbsPosMin : Int
  focusAbsPosMax : Int
  focusMaxPosValue : Int
  focusRelPosValue : Int
  focusSpeedValue : Int
  focusTimerValue : Int
  temperatureValue : Int
  lastPos : Int
  lastTemperature : Int
  focusAbsPosState : IPState
  focusRelPosState : IPState
  focusTimerState : IPState
  gotoHomeState : IPState
  coilPowerState : IPState
  temperatureSettingState : IPState
  gotoHomeSwitch : Bool
  coilPowerOnSwitch : Bool
  coilPowerOffSwitch : Bool
  focusReverseEnabledSwitch : Bool
  focusReverseDisabledSwitch : Bool
  targetPos : Nat
deriving DecidableEq, Repr

/-- One script entry per sendCommand call: none is a transport failure,
some res a successful exchange with read-back payload res. -/
abbrev Script := List (Option Chars)

/-- Result of running an operation: value, post state, commands written,
upstream publications, remaining script. -/
structure Out (α : Type) where
  val : α
  st : DriverState
  tr : List Chars
  ev : List Event
  sc : Script
deriving DecidableEq, Repr

/-- Whether the i-th sendCommand call of a script succeeds. -/
def scOk (sc : Script) (i : Nat) : Bool :=
  match sc.get? i with
  | some (some _) => true
  | _ => false

/-! ### Decimal rendering (snprintf) -/

/-- The decimal digit character for n (the C expression '0' + n, for n < 10). -/
def digitChar (n : Nat) : Char :=
  match n with
  | 0 => '0'
  | 1 => '1'
  | 2 => '2'
  | 3 => '3'
  | 4 => '4'
  | 5 => '5'
  | 6 => '6'
  | 7 => '7'
  | 8 => '8'
  | _ => '9'

/-- Numeric value of a digit character (the C expression c - '0'). -/
def charVal (c : Char) : Nat := c.toNat - 48

/-- Fuel-based most-significant-first decimal digit rendering.  Consumes one
fuel per digit, so any fuel of at least the digit count is exact. -/
def natCharsCore (fuel : Nat) (n : Nat) (acc : Chars) : Chars :=
  match fuel with
  | 0 => acc
  | fuel + 1 => if n = 0 then acc else natCharsCore fuel (n / 10) (digitChar (n % 10) :: acc)

/-- Decimal digits of n, most significant first; empty for 0.  Fuel 12 covers
every value printable from a 32-bit integer, the only sources of printf
arguments in the driver. -/
def natChars (n : Nat) : Chars := natCharsCore 12 n []

/-- Decimal representation of n as printf %u prints it (so 0 prints as "0"). -/
def natRepr (n : Nat) : Chars := if n = 0 then ['0'] else natChars n

/-- Decimal representation of i as printf %d or %i prints it. -/
def intRepr (i : Int) : Chars := if i < 0 then '-' :: natRepr i.natAbs else natRepr i.toNat

/-- The 9-wide zero-padded field of snprintf %09i for a nonnegative value:
zero-padding up to width 9, the full digit string if it is longer. -/
def pad9 (n : Nat) : Chars := List.replicate (9 - (natChars n).length) '0' ++ natChars n

/-- Value of a most-significant-first digit string continued from a: the
accumulator a decimal digit accumulation starts from. -/
def digitsValFrom (a : Nat) (ds : Chars) : Nat := ds.foldl (fun x c => x * 10 + charVal c) a

/-- Value of a most-significant-first decimal digit string. -/
def digitsVal (ds : Chars) : Nat := digitsValFrom 0 ds

/-! ### Response parsing (sscanf) -/

/-- Greedy decimal-digit accumulation, the core of a %d or %u conversion. -/
def parseUDigitsAux (acc : Nat) : Chars → Nat × Chars
  | [] => (acc, [])
  | c :: cs => if c.isDigit then parseUDigitsAux (acc * 10 + charVal c) cs else (acc, c :: cs)

/-- One or more decimal digits; none if the first character is not a digit. -/
def parseUDigits : Chars → Option (Nat × Chars)
  | [] => none
  | c :: cs => if c.isDigit then some (parseUDigitsAux (charVal c) cs) else none

/-- Whether a remainder list cannot extend a digit run: empty or headed by
a non-digit. -/
def noLeadDigit : Chars → Bool
  | [] => true
  | c :: _ => !c.isDigit

/-- A %d conversion: optional sign, then decimal digits.  (A %d also skips
leading whitespace, which the device's payloads never contain.) -/
def parseCDec (s : Chars) : Option (Int × Chars) :=
  match s with
  | [] => none
  | c :: cs =>
    if c = '-' then (parseUDigits cs).map (fun p => (-(p.1 : Int), p.2))
    else if c = '+' then (parseUDigits cs).map (fun p => ((p.1 : Int), p.2))
    else (parseUDigits (c :: cs)).map (fun p => ((p.1 : Int), p.2))

/-- Value of a hexadecimal digit character, if it is one. -/
def charHexVal (c : Char) : Option Nat :=
  if c.isDigit then some (charVal c)
  else if 'a' ≤ c ∧ c ≤ 'f' then some (c.toNat - 87)
  else if 'A' ≤ c ∧ c ≤ 'F' then some (c.toNat - 55)
  else none

/-- Greedy hexadecimal-digit accumulation. -/
def parseHexAux (acc : Nat) : Chars → Nat × Chars
  | [] => (acc, [])
  | c :: cs =>
    match charHexVal c with
    | some v => parseHexAux (acc * 16 + v) cs
    | none => (acc, c :: cs)

/-- Greedy octal-digit accumulation. -/
def parseOctAux (acc : Nat) : Chars → Nat × Chars
  | [] => (acc, [])
  | c :: cs => if '0' ≤ c ∧ c ≤ '7' then parseOctAux (acc * 8 + charVal c) cs else (acc, c :: cs)

/-- The unsigned part of a %i conversion: base prefix detection as strtol
with base 0 does it (0x or 0X selects hexadecimal, a leading 0 octal,
otherwise decimal; a 0x with no following hex digit falls back to the
lone 0). -/
def parseUNumBase0 (s : Chars) : Option (Nat × Chars) :=
  match s with
  | [] => none
  | c :: cs =>
    if c = '0' then
      match cs with
      | [] => some (0, [])
      | d :: ds =>
        if d = 'x' ∨ d = 'X' then
          match ds with
          | [] => some (0, d :: ds)
          | e :: _ => if (charHexVal e).isSome then some (parseHexAux 0 ds) else some (0, d :: ds)
        else some (parseOctAux 0 (d :: ds))
    else parseUDigits (c :: cs)

/-- A %i conversion: optional sign, then a base-prefixed integer. -/
def parseCInt (s : Chars) : Option (Int × Chars) :=
  match s with
  | [] => none
  | c :: cs =>
    if c = '-' then (parseUNumBase0 cs).map (fun p => (-(p.1 : Int), p.2))
    else if c = '+' then (parseUNumBase0 cs).map (fun p => ((p.1 : Int), p.2))
    else (parseUNumBase0 (c :: cs)).map (fun p => ((p.1 : Int), p.2))

/-- The sscanf pattern of readTemperature, readTemperatureCoefficient and
readTemperatureCalibration: sscanf(res, "%d.%d#", &wholepart, &fractpart)
followed by the value composition wholepart + fractpart / 10 in C int
arithmetic (division truncating toward zero).  As in the source, a payload
that matches only the first %d (rc == 1) leaves fractpart at 0. -/
def fixedPointParse (res : Chars) : Option Int :=
  match parseCDec res with
  | none => none
  | some (w, rest) =>
    match rest with
    | '.' :: r2 =>
      match parseCDec r2 with
      | some (f, _) => some (w + Int.tdiv f 10)
      | none => some w
    | _ => some w

/-- beginsWith pat s: s starts with pat. -/
def beginsWith : Chars → Chars → Bool
  | [], _ => true
  | _ :: _, [] => false
  | p :: ps, c :: cs => if p = c then beginsWith ps cs else false

/-- containsPat pat s: pat occurs somewhere in s, as strstr finds it. -/
def containsPat (pat : Chars) : Chars → Bool
  | [] => beginsWith pat []
  | c :: cs => beginsWith pat (c :: cs) || containsPat pat cs

/-- The isMoving payload parsing: strstr(res, "1#") means moving, otherwise
strstr(res, "0#") means not moving, anything else is a logged error and not
moving.  First component: the returned flag; second: whether the
unknown-payload error is logged. -/
def isMovingParse (res : Chars) : Bool × Bool :=
  if containsPat ['1', '#'] res then (true, false)
  else if containsPat ['0', '#'] res then (false, false)
  else (false, true)

/-! ### Command strings -/

def cmdGV : Chars := [':', 'G', 'V', '#']
def cmdGE : Chars := [':', 'G', 'E', '#']
def cmdGR : Chars := [':', 'G', 'R', '#']
def cmdGT : Chars := [':', 'G', 'T', '#']
def cmdGC : Chars := [':', 'G', 'C', '#']
def cmdGO : Chars := [':', 'G', 'O', '#']
def cmdGP : Chars := [':', 'G', 'P', '#']
def cmdGD : Chars := [':', 'G', 'D', '#']
def cmdGI : Chars := [':', 'G', 'I', '#']
def cmdFG : Chars := [':', 'F', 'G', '#']
def cmdFQ : Chars := [':', 'F', 'Q', '#']
def cmdHO : Chars := [':', 'H', 'O', '#']

/-- snprintf(cmd, ML_RES, ":SP%09i#", ticks), the SyncFocuser command. -/
def cmdSP (n : Nat) : Chars := ':' :: 'S' :: 'P' :: (pad9 n ++ ['#'])

/-- snprintf(cmd, ML_RES, ":SN%09i#", position), the target position set by
MoveFocuser(uint32_t). -/
def cmdSN (n : Nat) : Chars := ':' :: 'S' :: 'N' :: (pad9 n ++ ['#'])

/-- snprintf(cmd, ML_RES, ":SO%u#", calibration). -/
def cmdSO (n : Nat) : Chars := ':' :: 'S' :: 'O' :: (natRepr n ++ ['#'])

/-- snprintf(cmd, ML_RES, ":SC%d#", compensation). -/
def cmdSC (n : Nat) : Chars := ':' :: 'S' :: 'C' :: (natRepr n ++ ['#'])

/-- snprintf(cmd, ML_RES, ":SE%d#", enable). -/
def cmdSE (n : Nat) : Chars := ':' :: 'S' :: 'E' :: (natRepr n ++ ['#'])

/-- snprintf(cmd, ML_RES, ":SR%d#", enable). -/
def cmdSR (n : Nat) : Chars := ':' :: 'S' :: 'R' :: (natRepr n ++ ['#'])

/-- snprintf(cmd, ML_RES, ":SD%i#", speed). -/
def cmdSD (s : Int) : Chars := ':' :: 'S' :: 'D' :: (intRepr s ++ ['#'])

/-- snprintf(cmd, ML_RES, ":%c#", enable ? plus : minus), the temperature
compensation toggle. -/
def cmdTempComp (enable : Bool) : Chars := [':', if enable then '+' else '-', '#']

/-! ### Machine-integer conversions the source performs -/

/-- Conversion of a C int32 value to uint32, as the implicit conversions at
the MoveFocuser(uint32_t) call sites perform it. -/
def uint32ofInt (i : Int) : Nat := (i % 4294967296).toNat

/-- The clamp MoveRelFocuser performs: std max of the lower bound against
the std min of the upper bound and the value. -/
def clampInt (lo hi x : Int) : Int := max lo (min hi x)

/-- Reading a uint32 value as int32 (the static_cast of a uint32_t tick
count in MoveRelFocuser). -/
def int32ofUInt32 (n : Nat) : Int :=
  if n % 4294967296 < 2147483648 then ((n % 4294967296 : Nat) : Int)
  else ((n % 4294967296 : Nat) : Int) - 4294967296

/-! ### The protocol operations

A sendCommand call consumes one script entry.  queryOp is the read-back
form (res buffer passed): on transport success the handler parses the
payload and updates the state; setOp is the write-only form. -/

/-- sendCommand with a response buffer: transport failure returns false
without parsing, success hands the payload to the handler. -/
def queryOp (cmd : Chars) (handle : Chars → DriverState → Bool × DriverState)
    (st : DriverState) (sc : Script) : Out Bool :=
  match sc with
  | [] => ⟨false, st, [cmd], [], []⟩
  | none :: rest => ⟨false, st, [cmd], [], rest⟩
  | some res :: rest =>
    let h := handle res st
    ⟨h.1, h.2, [cmd], [], rest⟩

/-- sendCommand with res == nullptr: write only, success is transport
success. -/
def setOp (cmd : Chars) (st : DriverState) (sc : Script) : Out Bool :=
  match sc with
  | [] => ⟨false, st, [cmd], [], []⟩
  | o :: rest => ⟨o.isSome, st, [cmd], [], rest⟩

/-- AstroStep::readVersion: a GV query, successful on any reply. -/
def readVersion (st : DriverState) (sc : Script) : Out Bool :=
  queryOp cmdGV (fun _ st => (true, st)) st sc

/-- The retry loop body of AstroStep::Ack, unrolled over the remaining
attempt count. -/
def AckLoop : Nat → DriverState → Script → Out Bool
  | 0, st, sc => ⟨false, st, [], [], sc⟩
  | n + 1, st, sc =>
    let o := readVersion st sc
    if o.val then ⟨true, o.st, o.tr, o.ev, o.sc⟩
    else
      let o2 := AckLoop n o.st o.sc
      ⟨o2.val, o2.st, o.tr ++ o2.tr, o.ev ++ o2.ev, o2.sc⟩

/-- AstroStep::Ack: up to 3 readVersion attempts, stopping at the first
success (the 1-second sleep between attempts is not modelled). -/
def Ack (st : DriverState) (sc : Script) : Out Bool := AckLoop 3 st sc

/-- AstroStep::readCoilPowerState: GE query, %u parse, 0 or 1 sets the
matching switch, anything else is an error. -/
def readCoilPowerState (st : DriverState) (sc : Script) : Out Bool :=
  queryOp cmdGE
    (fun res st =>
      match parseUDigits res with
      | some (v, _) =>
        if v = 0 then (true, { st with coilPowerOffSwitch := true })
        else if v = 1 then (true, { st with coilPowerOnSwitch := true })
        else (false, st)
      | none => (false, st))
    st sc

/-- AstroStep::readReverseDirection: GR query, %d parse, 0 or 1 sets the
matching switch, anything else is an error. -/
def readReverseDirection (st : DriverState) (sc : Script) : Out Bool :=
  queryOp cmdGR
    (fun res st =>
      match parseCDec res with
      | some (v, _) =>
        if v = 0 then (true, { st with focusReverseDisabledSwitch := true })
        else if v = 1 then (true, { st with focusReverseEnabledSwitch := true })
        else (false, st)
      | none => (false, st))
    st sc

/-- AstroStep::readTemperature: GT query, "%d.%d#" parse composed as
wholepart + fractpart / 10. -/
def readTemperature (st : DriverState) (sc : Script) : Out Bool :=
  queryOp cmdGT
    (fun res st =>
      match fixedPointParse res with
      | some v => (true, { st with temperatureValue := v })
      | none => (false, st))
    st sc

/-- AstroStep::readTemperatureCoefficient: GC query, same parse as
readTemperature. -/
def readTemperatureCoefficient (st : DriverState) (sc : Script) : Out Bool :=
  queryOp cmdGC
    (fun res st =>
      match fixedPointParse res with
      | some _ => (true, st)
      | none => (false, st))
    st sc

/-- AstroStep::readTemperatureCalibration: GO query, same parse as
readTemperature. -/
def readTemperatureCalibration (st : DriverState) (sc : Script) : Out Bool :=
  queryOp cmdGO
    (fun res st =>
      match fixedPointParse res with
      | some _ => (true, st)
      | none => (false, st))
    st sc

/-- AstroStep::readPosition: GP query, %i parse into FocusAbsPosN[0].value. -/
def readPosition (st : DriverState) (sc : Script) : Out Bool :=
  queryOp cmdGP
    (fun res st =>
      match parseCInt res with
      | some (p, _) => (true, { st with focusAbsPosValue := p })
      | none => (false, st))
    st sc

/-- AstroStep::readSpeed: GD query, %i parse into FocusSpeedN[0].value. -/
def readSpeed (st : DriverState) (sc : Script) : Out Bool :=
  queryOp cmdGD
    (fun res st =>
      match parseCInt res with
      | some (v, _) => (true, { st with focusSpeedValue := v })
      | none => (false, st))
    st sc

/-- AstroStep::isMoving: GI query; false on transport failure, else the
strstr-based payload classification. -/
def isMoving (st : DriverState) (sc : Script) : Out Bool :=
  queryOp cmdGI (fun res st => ((isMovingParse res).1, st)) st sc

/-- AstroStep::setTemperatureCalibration. -/
def setTemperatureCalibration (calibration : Nat) (st : DriverState) (sc : Script) : Out Bool :=
  setOp (cmdSO calibration) st sc

/-- AstroStep::setTemperatureCoefficient. -/
def setTemperatureCoefficient (compensation : Nat) (st : DriverState) (sc : Script) : Out Bool :=
  setOp (cmdSC compensation) st sc

/-- AstroStep::SyncFocuser: a single SP set-current-position command. -/
def SyncFocuser (ticks : Nat) (st : DriverState) (sc : Script) : Out Bool :=
  setOp (cmdSP ticks) st sc

/-- AstroStep::MoveFocuser(uint32_t position): the SN set-target command,
then on its success the FG start-motion command; false as soon as either
fails. -/
def MoveFocuserPos (position : Nat) (st : DriverState) (sc : Script) : Out Bool :=
  let o := setOp (cmdSN position) st sc
  if o.val = false then ⟨false, o.st, o.tr, o.ev, o.sc⟩
  else
    let o2 := setOp cmdFG o.st o.sc
    ⟨o2.val, o2.st, o.tr ++ o2.tr, o.ev ++ o2.ev, o2.sc⟩

/-- AstroStep::setCoilPowerState. -/
def setCoilPowerState (enable : CoilPower) (st : DriverState) (sc : Script) : Out Bool :=
  setOp (cmdSE enable.toNat) st sc

/-- AstroStep::ReverseFocuser. -/
def ReverseFocuser (enable : Bool) (st : DriverState) (sc : Script) : Out Bool :=
  setOp (cmdSR (if enable then 1 else 0)) st sc

/-- AstroStep::AbortFocuser: the FQ stop command. -/
def AbortFocuser (st : DriverState) (sc : Script) : Out Bool :=
  setOp cmdFQ st sc

/-- AstroStep::setGotoHome: abort first if the device reports it is moving
(the abort's own result is ignored), then the HO command. -/
def setGotoHome (st : DriverState) (sc : Script) : Out Bool :=
  let o := isMoving st sc
  if o.val then
    let oa := AbortFocuser o.st o.sc
    let oh := setOp cmdHO oa.st oa.sc
    ⟨oh.val, oh.st, o.tr ++ oa.tr ++ oh.tr, o.ev ++ oa.ev ++ oh.ev, oh.sc⟩
  else
    let oh := setOp cmdHO o.st o.sc
    ⟨oh.val, oh.st, o.tr ++ oh.tr, o.ev ++ oh.ev, oh.sc⟩

/-- AstroStep::setSpeed.  The int argument passes through a uint32_t
parameter and back through %i, which is the identity on int32 values, so
the command carries the argument as given. -/
def setSpeed (speed : Int) (st : DriverState) (sc : Script) : Out Bool :=
  setOp (cmdSD speed) st sc

/-- AstroStep::setTemperatureCompensation. -/
def setTemperatureCompensation (enable : Bool) (st : DriverState) (sc : Script) : Out Bool :=
  setOp (cmdTempComp enable) st sc

/-- fabs on the integer-valued position doubles. -/
def fabsInt (x : Int) : Int := if x < 0 then -x else x

/-- fabs on the integer-valued temperature doubles, kept rational so the
source's 0.5 threshold can be written as it stands. -/
def fabsRat (x : Rat) : Rat := if x < 0 then -x else x

/-- AstroStep::GetFocusParams: one read of each parameter after connecting,
publishing each property whose read succeeded. -/
def GetFocusParams (st : DriverState) (sc : Script) : Out Unit :=
  let o1 := readPosition st sc
  let e1 : List Event := if o1.val then [Event.reportAbsPos] else []
  let o2 := readTemperature o1.st o1.sc
  let e2 : List Event := if o2.val then [Event.reportTemperature] else []
  let o3 := readSpeed o2.st o2.sc
  let o4 := readCoilPowerState o3.st o3.sc
  let o5 := readTemperatureCalibration o4.st o4.sc
  let e5 : List Event := if o5.val then [Event.reportTemperatureSetting] else []
  let o6 := readTemperatureCoefficient o5.st o5.sc
  let e6 : List Event := if o6.val then [Event.reportTemperatureSetting] else []
  let o7 := readReverseDirection o6.st o6.sc
  ⟨(), o7.st, o1.tr ++ o2.tr ++ o3.tr ++ o4.tr ++ o5.tr ++ o6.tr ++ o7.tr,
    e1 ++ e2 ++ e5 ++ e6, o7.sc⟩

/-- AstroStep::MoveFocuser(FocusDirection, int, uint16_t): the timed move.
If the requested speed differs from FocusSpeedN[0].value a set-speed
command is issued first and its failure aborts with IPS_ALERT; then the
focuser is sent toward the travel extreme of the direction (0 inward, the
max position outward) with the result of that move IGNORED, the one-shot
abort timer is armed (the Bool of the result) and IPS_BUSY returned. -/
def MoveFocuserTimed (dir : FocusDirection) (speed : Int) (duration : Nat)
    (st : DriverState) (sc : Script) : Out (IPState × Bool) :=
  let _ := duration
  let target : Nat :=
    if dir = FocusDirection.FOCUS_INWARD then 0 else uint32ofInt st.focusMaxPosValue
  if speed ≠ st.focusSpeedValue then
    let o := setSpeed speed st sc
    if o.val = false then ⟨(IPState.IPS_ALERT, false), o.st, o.tr, o.ev, o.sc⟩
    else
      let o2 := MoveFocuserPos target o.st o.sc
      ⟨(IPState.IPS_BUSY, true), o2.st, o.tr ++ o2.tr, o.ev ++ o2.ev, o2.sc⟩
  else
    let o2 := MoveFocuserPos target st sc
    ⟨(IPState.IPS_BUSY, true), o2.st, o2.tr, o2.ev, o2.sc⟩

/-- AstroStep::timedMoveCallback: the one-shot timer body.  Unconditionally
aborts, sets the absolute, relative and timer statuses to IPS_IDLE, zeroes
the timer magnitude and publishes all three properties. -/
def timedMoveCallback (st : DriverState) (sc : Script) : Out Unit :=
  let o := AbortFocuser st sc
  let st2 : DriverState :=
    { o.st with
      focusAbsPosState := IPState.IPS_IDLE
      focusRelPosState := IPState.IPS_IDLE
      focusTimerState := IPState.IPS_IDLE
      focusTimerValue := 0 }
  ⟨(), st2, o.tr, o.ev ++ [Event.reportAbsPos, Event.reportRelPos, Event.reportTimer], o.sc⟩

/-- AstroStep::MoveAbsFocuser: record the target, run the two-command move
with the target as given (no clamping), IPS_ALERT on failure, IPS_BUSY on
success. -/
def MoveAbsFocuser (targetTicks : Nat) (st : DriverState) (sc : Script) : Out IPState :=
  let st1 : DriverState := { st with targetPos := targetTicks }
  let o := MoveFocuserPos targetTicks st1 sc
  if o.val = false then ⟨IPState.IPS_ALERT, o.st, o.tr, o.ev, o.sc⟩
  else ⟨IPState.IPS_BUSY, o.st, o.tr, o.ev, o.sc⟩

/-- AstroStep::MoveRelFocuser: signed offset from the int32 reading of the
tick count, clamp of current + offset into [FocusAbsPosN.min,
FocusAbsPosN.max], then the two-command move of the clamped value; on
success the relative magnitude is set to the REQUESTED tick count and the
relative status to IPS_BUSY. -/
def MoveRelFocuser (dir : FocusDirection) (ticks : Nat) (st : DriverState) (sc : Script) :
    Out IPState :=
  let offset : Int :=
    (if dir = FocusDirection.FOCUS_INWARD then -1 else 1) * int32ofUInt32 ticks
  let newPosition : Int :=
    clampInt st.focusAbsPosMin st.focusAbsPosMax (st.focusAbsPosValue + offset)
  let o := MoveFocuserPos (uint32ofInt newPosition) st sc
  if o.val = false then ⟨IPState.IPS_ALERT, o.st, o.tr, o.ev, o.sc⟩
  else
    ⟨IPState.IPS_BUSY,
      { o.st with focusRelPosValue := (ticks : Int), focusRelPosState := IPState.IPS_BUSY },
      o.tr, o.ev, o.sc⟩

/-- AstroStep::TimerHit (while connected): re-read the position and publish
it only when it moved by more than 5 ticks from lastPos, re-read the
temperature and publish it only when it changed by at least 0.5 from
lastTemperature, and while a move is busy poll the motion flag and
reconcile both move statuses to IPS_OK (republishing both position
properties and updating lastPos) when the device reports it stopped. -/
def TimerHit (st : DriverState) (sc : Script) : Out Unit :=
  let o1 := readPosition st sc
  let p1 : DriverState × List Event :=
    if o1.val then
      if 5 < fabsInt (o1.st.lastPos - o1.st.focusAbsPosValue) then
        ({ o1.st with lastPos := o1.st.focusAbsPosValue }, [Event.reportAbsPos])
      else (o1.st, [])
    else (o1.st, [])
  let o2 := readTemperature p1.1 o1.sc
  let p2 : DriverState × List Event :=
    if o2.val then
      if (1 : Rat) / 2 ≤ fabsRat ((o2.st.lastTemperature : Rat) - (o2.st.temperatureValue : Rat)) then
        ({ o2.st with lastTemperature := o2.st.temperatureValue }, [Event.reportTemperature])
      else (o2.st, [])
    else (o2.st, [])
  if p2.1.focusAbsPosState = IPState.IPS_BUSY ∨ p2.1.focusRelPosState = IPState.IPS_BUSY then
    let o3 := isMoving p2.1 o2.sc
    if o3.val = false then
      let st5 : DriverState :=
        { o3.st with
          focusAbsPosState := IPState.IPS_OK
          focusRelPosState := IPState.IPS_OK
          lastPos := o3.st.focusAbsPosValue }
      ⟨(), st5,
        o1.tr ++ o2.tr ++ o3.tr, p1.2 ++ p2.2 ++ [Event.reportAbsPos, Event.reportRelPos], o3.sc⟩
    else ⟨(), o3.st, o1.tr ++ o2.tr ++ o3.tr, p1.2 ++ p2.2, o3.sc⟩
  else ⟨(), p2.1, o1.tr ++ o2.tr, p1.2 ++ p2.2, o2.sc⟩

/-- The FOCUS_HOME branch of AstroStep::ISNewSwitch: run setGotoHome; on
failure reset the home switch, set the COIL POWER property's status to
IPS_ALERT (as the source does) and publish the home switch; on success set
the home status to IPS_OK and publish it. -/
def gotoHomeBranch (st : DriverState) (sc : Script) : Out Bool :=
  let o := setGotoHome st sc
  if o.val = false then
    ⟨false, { o.st with gotoHomeSwitch := false, coilPowerState := IPState.IPS_ALERT },
      o.tr, o.ev ++ [Event.reportGotoHome], o.sc⟩
  else
    ⟨true, { o.st with gotoHomeState := IPState.IPS_OK },
      o.tr, o.ev ++ [Event.reportGotoHome], o.sc⟩

/-- The temperature-settings branch of AstroStep::ISNewNumber: set the
calibration then (only if it succeeded, by shortcut evaluation) the
coefficient; IPS_ALERT on a failure, IPS_OK when both succeed. -/
def tempSettingBranch (cal coef : Nat) (st : DriverState) (sc : Script) : Out Bool :=
  let o1 := setTemperatureCalibration cal st sc
  if o1.val = false then
    ⟨false, { o1.st with temperatureSettingState := IPState.IPS_ALERT },
      o1.tr, o1.ev ++ [Event.reportTemperatureSetting], o1.sc⟩
  else
    let o2 := setTemperatureCoefficient coef o1.st o1.sc
    if o2.val = false then
      ⟨false, { o2.st with temperatureSettingState := IPState.IPS_ALERT },
        o1.tr ++ o2.tr, o1.ev ++ o2.ev ++ [Event.reportTemperatureSetting], o2.sc⟩
    else
      ⟨true, { o2.st with temperatureSettingState := IPState.IPS_OK },
        o1.tr ++ o2.tr, o1.ev ++ o2.ev ++ [Event.reportTemperatureSetting], o2.sc⟩

/-- A concrete driver state with the initProperties defaults, used by the
concrete evaluations below. -/
def st0 : DriverState where
  focusAbsPosValue := 0
  focusAbsPosMin := 0
  focusAbsPosMax := 1000000
  focusMaxPosValue := 1000000
  focusRelPosValue := 0
  focusSpeedValue := 200000
  focusTimerValue := 0
  temperatureValue := 0
  lastPos := 0
  lastTemperature := 0
  focusAbsPosState := IPState.IPS_IDLE
  focusRelPosState := IPState.IPS_IDLE
  focusTimerState := IPState.IPS_IDLE
  gotoHomeState := IPState.IPS_IDLE
  coilPowerState := IPState.IPS_IDLE
  temperatureSettingState := IPState.IPS_IDLE
  gotoHomeSwitch := false
  coilPowerOnSwitch := true
  coilPowerOffSwitch := false
  focusReverseEnabledSwitch := false
  focusReverseDisabledSwitch := true
  targetPos := 0

/-! ### Basic facts about the protocol-engine combinators -/

theorem setOp_eq (c : Chars) (st : DriverState) (sc : Script) :
    setOp c st sc = ⟨scOk sc 0, st, [c], [], sc.tail⟩ := by
  rcases sc with _ | ⟨o, rest⟩
  · rfl
  · cases o <;> rfl

theorem queryOp_tr (c : Chars) (h : Chars → DriverState → Bool × DriverState)
    (st : DriverState) (sc : Script) : (queryOp c h st sc).tr = [c] := by
  rcases sc with _ | ⟨o, rest⟩
  · rfl
  · cases o <;> rfl

theorem queryOp_ev (c : Chars) (h : Chars → DriverState → Bool × DriverState)
    (st : DriverState) (sc : Script) : (queryOp c h st sc).ev = [] := by
  rcases sc with _ | ⟨o, rest⟩
  · rfl
  · cases o <;> rfl

theorem queryOp_sc (c : Chars) (h : Chars → DriverState → Bool × DriverState)
    (st : DriverState) (sc : Script) : (queryOp c h st sc).sc = sc.tail := by
  rcases sc with _ | ⟨o, rest⟩
  · rfl
  · cases o <;> rfl

theorem queryOp_some (c : Chars) (h : Chars → DriverState → Bool × DriverState)
    (st : DriverState) (res : Chars) (rest : Script) :
    queryOp c h st (some res :: rest) = ⟨(h res st).1, (h res st).2, [c], [], rest⟩ := rfl

theorem MoveFocuserPos_eq (p : Nat) (st : DriverState) (sc : Script) :
    MoveFocuserPos p st sc =
      ⟨scOk sc 0 && scOk sc 1, st,
        if scOk sc 0 = true then [cmdSN p, cmdFG] else [cmdSN p], [],
        if scOk sc 0 = true then sc.drop 2 else sc.drop 1⟩ := by
  rcases sc with _ | ⟨o1, rest⟩
  · rfl
  · rcases o1 with _ | r1
    · simp [MoveFocuserPos, setOp, scOk]
    · simp [MoveFocuserPos, setOp_eq, scOk, List.get?]

/-! ### Claim C1 -/

/-- Claim C1: when the one-shot timer armed by a timed move fires, the
callback unconditionally (for every driver state and every script, i.e.
regardless of whether the move had completed or any prior readback failed)
issues the Abort command exactly once, sets the absolute-position,
relative-position and timer statuses to IPS_IDLE, zeroes the reported timer
magnitude, and publishes the three properties. -/
theorem timedMoveCallback_unconditional_abort (st : DriverState) (sc : Script) :
    (timedMoveCallback st sc).tr = [cmdFQ] ∧
    (timedMoveCallback st sc).st.focusAbsPosState = IPState.IPS_IDLE ∧
    (timedMoveCallback st sc).st.focusRelPosState = IPState.IPS_IDLE ∧
    (timedMoveCallback st sc).st.focusTimerState = IPState.IPS_IDLE ∧
    (timedMoveCallback st sc).st.focusTimerValue = 0 ∧
    (timedMoveCallback st sc).ev
      = [Event.reportAbsPos, Event.reportRelPos, Event.reportTimer] := by
  simp [timedMoveCallback, AbortFocuser, setOp_eq]

/-! ### Claim C7 -/

/-- Claim C7: an absolute move records the target, issues the set-position
command carrying exactly the requested target (for every target, with no
clamping) followed, if that command succeeded, by the separate start-motion
command; it returns IPS_ALERT exactly when either command fails and
IPS_BUSY exactly when both succeed. -/
theorem MoveAbsFocuser_no_clamp_two_commands (t : Nat) (st : DriverState) (sc : Script) :
    (MoveAbsFocuser t st sc).tr
      = (if scOk sc 0 = true then [cmdSN t, cmdFG] else [cmdSN t]) ∧
    ((MoveAbsFocuser t st sc).val = IPState.IPS_BUSY ↔ (scOk sc 0 = true ∧ scOk sc 1 = true)) ∧
    ((MoveAbsFocuser t st sc).val = IPState.IPS_ALERT
      ↔ ¬(scOk sc 0 = true ∧ scOk sc 1 = true)) ∧
    (MoveAbsFocuser t st sc).st.targetPos = t := by
  cases h0 : scOk sc 0 <;> cases h1 : scOk sc 1 <;>
    simp [MoveAbsFocuser, MoveFocuserPos_eq, h0, h1]

/-! ### Claim C10 -/

/-- Claim C10: a timed move returns IPS_BUSY and arms the one-shot abort
timer (second component true) for every outcome of the movement commands:
the full-travel move result is ignored, and the only way to get IPS_ALERT
with no timer armed is a set-speed command that is actually issued (the
requested speed differs from the last-known speed) and fails. -/
theorem MoveFocuserTimed_busy_unless_setspeed_fails (dir : FocusDirection) (speed : Int)
    (duration : Nat) (st : DriverState) (sc : Script) :
    (MoveFocuserTimed dir speed duration st sc).val =
      (if speed ≠ st.focusSpeedValue ∧ scOk sc 0 = false then (IPState.IPS_ALERT, false)
       else (IPState.IPS_BUSY, true)) := by
  by_cases hs : speed = st.focusSpeedValue
  · simp [MoveFocuserTimed, hs, MoveFocuserPos_eq]
  · cases h0 : scOk sc 0 <;>
      simp [MoveFocuserTimed, hs, setSpeed, setOp_eq, h0, MoveFocuserPos_eq]

/-! ### Helper lemmas for the retry-policy claim -/

theorem pad9_length_ge (n : Nat) : 9 ≤ (pad9 n).length := by
  simp only [pad9, List.length_append, List.length_replicate]
  omega

theorem cmdSN_ne_cmdFG (p : Nat) : cmdSN p ≠ cmdFG := by
  intro h
  have hl := congrArg List.length h
  have h9 := pad9_length_ge p
  simp only [cmdSN, cmdFG, List.length_cons, List.length_append] at hl
  omega

theorem cmdSD_ne_cmdSN (s : Int) (p : Nat) : cmdSD s ≠ cmdSN p := by
  intro h
  simp only [cmdSD, cmdSN] at h
  injection h with _ h
  injection h with _ h
  injection h with h3 _
  exact absurd h3 (by decide)

theorem cmdSD_ne_cmdFG (s : Int) : cmdSD s ≠ cmdFG := by
  intro h
  simp only [cmdSD, cmdFG] at h
  injection h with _ h
  injection h with h2 _
  exact absurd h2 (by decide)

theorem cmdSO_ne_cmdSC (a b : Nat) : cmdSO a ≠ cmdSC b := by
  intro h
  simp only [cmdSO, cmdSC] at h
  injection h with _ h
  injection h with _ h
  injection h with h3 _
  exact absurd h3 (by decide)

theorem Ack_spec_aux (st : DriverState) (sc : Script) :
    (Ack st sc).val = (scOk sc 0 || scOk sc 1 || scOk sc 2) ∧
    (Ack st sc).tr = List.replicate
      (if scOk sc 0 = true then 1 else if scOk sc 1 = true then 2 else 3) cmdGV := by
  rcases sc with _ | ⟨_ | r1, _ | ⟨_ | r2, _ | ⟨_ | r3, rest⟩⟩⟩ <;>
    simp [Ack, AckLoop, readVersion, queryOp, scOk, List.get?, List.replicate]

theorem MoveFocuserPos_nodup (p : Nat) (st : DriverState) (sc : Script) :
    (MoveFocuserPos p st sc).tr.Nodup := by
  rw [MoveFocuserPos_eq]
  split <;> simp [cmdSN_ne_cmdFG p]

theorem MoveAbsFocuser_nodup (t : Nat) (st : DriverState) (sc : Script) :
    (MoveAbsFocuser t st sc).tr.Nodup := by
  simp only [MoveAbsFocuser]
  split <;> exact MoveFocuserPos_nodup _ _ _

theorem MoveRelFocuser_nodup (dir : FocusDirection) (ticks : Nat) (st : DriverState)
    (sc : Script) : (MoveRelFocuser dir ticks st sc).tr.Nodup := by
  simp only [MoveRelFocuser]
  split <;> (try split) <;> exact MoveFocuserPos_nodup _ _ _

theorem MoveFocuserTimed_nodup (dir : FocusDirection) (speed : Int) (duration : Nat)
    (st : DriverState) (sc : Script) : (MoveFocuserTimed dir speed duration st sc).tr.Nodup := by
  simp only [MoveFocuserTimed]
  split
  · split
    · simp [setSpeed, setOp_eq]
    · rw [MoveFocuserPos_eq]
      split <;>
        simp [setSpeed, setOp_eq, cmdSD_ne_cmdSN, cmdSD_ne_cmdFG, cmdSN_ne_cmdFG]
  · rw [MoveFocuserPos_eq]
    split <;> simp [cmdSN_ne_cmdFG]

theorem setGotoHome_tr (st : DriverState) (sc : Script) :
    (setGotoHome st sc).tr
      = if (isMoving st sc).val = true then [cmdGI, cmdFQ, cmdHO] else [cmdGI, cmdHO] := by
  simp only [setGotoHome, AbortFocuser]
  split <;> simp_all [isMoving, queryOp_tr, setOp_eq]

theorem setGotoHome_nodup (st : DriverState) (sc : Script) : (setGotoHome st sc).tr.Nodup := by
  rw [setGotoHome_tr]
  split <;> decide

theorem gotoHomeBranch_nodup (st : DriverState) (sc : Script) :
    (gotoHomeBranch st sc).tr.Nodup := by
  simp only [gotoHomeBranch]
  split <;> exact setGotoHome_nodup st sc

theorem tempSettingBranch_nodup (cal coef : Nat) (st : DriverState) (sc : Script) :
    (tempSettingBranch cal coef st sc).tr.Nodup := by
  simp only [tempSettingBranch, setTemperatureCalibration, setTemperatureCoefficient]
  split
  · simp [setOp_eq]
  · split <;> simp [setOp_eq, cmdSO_ne_cmdSC]

theorem readVersion_tr (st : DriverState) (sc : Script) : (readVersion st sc).tr = [cmdGV] :=
  queryOp_tr _ _ _ _

theorem readCoilPowerState_tr (st : DriverState) (sc : Script) :
    (readCoilPowerState st sc).tr = [cmdGE] :=
  queryOp_tr _ _ _ _

theorem readReverseDirection_tr (st : DriverState) (sc : Script) :
    (readReverseDirection st sc).tr = [cmdGR] :=
  queryOp_tr _ _ _ _

theorem readTemperature_tr (st : DriverState) (sc : Script) :
    (readTemperature st sc).tr = [cmdGT] :=
  queryOp_tr _ _ _ _

theorem readTemperatureCoefficient_tr (st : DriverState) (sc : Script) :
    (readTemperatureCoefficient st sc).tr = [cmdGC] :=
  queryOp_tr _ _ _ _

theorem readTemperatureCalibration_tr (st : DriverState) (sc : Script) :
    (readTemperatureCalibration st sc).tr = [cmdGO] :=
  queryOp_tr _ _ _ _

theorem readPosition_tr (st : DriverState) (sc : Script) : (readPosition st sc).tr = [cmdGP] :=
  queryOp_tr _ _ _ _

theorem readSpeed_tr (st : DriverState) (sc : Script) : (readSpeed st sc).tr = [cmdGD] :=
  queryOp_tr _ _ _ _

theorem isMoving_tr (st : DriverState) (sc : Script) : (isMoving st sc).tr = [cmdGI] :=
  queryOp_tr _ _ _ _

theorem TimerHit_nodup (st : DriverState) (sc : Script) : (TimerHit st sc).tr.Nodup := by
  simp only [TimerHit]
  repeat' split
  all_goals simp [readPosition_tr, readTemperature_tr, isMoving_tr]
  all_goals decide

theorem GetFocusParams_tr (st : DriverState) (sc : Script) :
    (GetFocusParams st sc).tr = [cmdGP, cmdGT, cmdGD, cmdGE, cmdGO, cmdGC, cmdGR] := by
  show (readPosition st sc).tr ++ _ ++ _ ++ _ ++ _ ++ _ ++ _ = _
  simp only [readPosition_tr, readTemperature_tr, readSpeed_tr, readCoilPowerState_tr,
    readTemperatureCalibration_tr, readTemperatureCoefficient_tr, readReverseDirection_tr]
  rfl

/-! ### Claim C6 -/

/-- Claim C6: the connect handshake (Ack) attempts the version query at most
3 times (its trace is 1, 2 or 3 copies of the GV command, stopping at the
first scripted success), reports success exactly when one of the first 3
exchanges succeeds, and failure exactly when all 3 fail; and no other
operation retries on error: every other command-issuing operation of the
driver writes each command at most once on every script (the single-query
reads and single-command sets have one-element traces, and every composite
operation has a duplicate-free trace). -/
theorem Ack_retries_thrice_nothing_else_retries :
    (∀ st sc, (Ack st sc).val = (scOk sc 0 || scOk sc 1 || scOk sc 2) ∧
      (Ack st sc).tr = List.replicate
        (if scOk sc 0 = true then 1 else if scOk sc 1 = true then 2 else 3) cmdGV) ∧
    (∀ st sc, (readVersion st sc).tr = [cmdGV]) ∧
    (∀ st sc, (readCoilPowerState st sc).tr = [cmdGE]) ∧
    (∀ st sc, (readReverseDirection st sc).tr = [cmdGR]) ∧
    (∀ st sc, (readTemperature st sc).tr = [cmdGT]) ∧
    (∀ st sc, (readTemperatureCoefficient st sc).tr = [cmdGC]) ∧
    (∀ st sc, (readTemperatureCalibration st sc).tr = [cmdGO]) ∧
    (∀ st sc, (readPosition st sc).tr = [cmdGP]) ∧
    (∀ st sc, (readSpeed st sc).tr = [cmdGD]) ∧
    (∀ st sc, (isMoving st sc).tr = [cmdGI]) ∧
    (∀ n st sc, (setTemperatureCalibration n st sc).tr = [cmdSO n]) ∧
    (∀ n st sc, (setTemperatureCoefficient n st sc).tr = [cmdSC n]) ∧
    (∀ n st sc, (SyncFocuser n st sc).tr = [cmdSP n]) ∧
    (∀ e st sc, (setCoilPowerState e st sc).tr = [cmdSE e.toNat]) ∧
    (∀ b st sc, (ReverseFocuser b st sc).tr = [cmdSR (if b then 1 else 0)]) ∧
    (∀ s st sc, (setSpeed s st sc).tr = [cmdSD s]) ∧
    (∀ b st sc, (setTemperatureCompensation b st sc).tr = [cmdTempComp b]) ∧
    (∀ st sc, (AbortFocuser st sc).tr = [cmdFQ]) ∧
    (∀ st sc, (timedMoveCallback st sc).tr = [cmdFQ]) ∧
    (∀ p st sc, (MoveFocuserPos p st sc).tr.Nodup) ∧
    (∀ t st sc, (MoveAbsFocuser t st sc).tr.Nodup) ∧
    (∀ dir ticks st sc, (MoveRelFocuser dir ticks st sc).tr.Nodup) ∧
    (∀ dir speed duration st sc, (MoveFocuserTimed dir speed duration st sc).tr.Nodup) ∧
    (∀ st sc, (setGotoHome st sc).tr.Nodup) ∧
    (∀ st sc, (gotoHomeBranch st sc).tr.Nodup) ∧
    (∀ cal coef st sc, (tempSettingBranch cal coef st sc).tr.Nodup) ∧
    (∀ st sc, (TimerHit st sc).tr.Nodup) ∧
    (∀ st sc, (GetFocusParams st sc).tr
      = [cmdGP, cmdGT, cmdGD, cmdGE, cmdGO, cmdGC, cmdGR]) := by
  refine ⟨Ack_spec_aux, readVersion_tr, readCoilPowerState_tr, readReverseDirection_tr,
    readTemperature_tr, readTemperatureCoefficient_tr, readTemperatureCalibration_tr,
    readPosition_tr, readSpeed_tr, isMoving_tr, ?_, ?_, ?_, ?_, ?_, ?_, ?_, ?_, ?_,
    MoveFocuserPos_nodup, MoveAbsFocuser_nodup, MoveRelFocuser_nodup, MoveFocuserTimed_nodup,
    setGotoHome_nodup, gotoHomeBranch_nodup, tempSettingBranch_nodup, TimerHit_nodup,
    GetFocusParams_tr⟩
  all_goals intros
  all_goals
    first
    | exact (setOp_eq _ _ _) ▸ rfl
    | simp [setTemperatureCalibration, setTemperatureCoefficient, SyncFocuser,
        setCoilPowerState, ReverseFocuser, setSpeed, setTemperatureCompensation,
        AbortFocuser, timedMoveCallback, setOp_eq]

/-! ### Facts about the decimal rendering -/

theorem digitChar_isDigit (r : Nat) : (digitChar r).isDigit = true := by
  rcases r with _ | _ | _ | _ | _ | _ | _ | _ | _ | _ | n <;> rfl

theorem charVal_digitChar (r : Nat) (h : r < 10) : charVal (digitChar r) = r := by
  rcases r with _ | _ | _ | _ | _ | _ | _ | _ | _ | _ | n
  · rfl
  · rfl
  · rfl
  · rfl
  · rfl
  · rfl
  · rfl
  · rfl
  · rfl
  · rfl
  · omega

theorem natCharsCore_acc (fuel : Nat) :
    ∀ n acc, natCharsCore fuel n acc = natCharsCore fuel n [] ++ acc := by
  induction fuel with
  | zero => intro n acc; simp [natCharsCore]
  | succ fuel ih =>
    intro n acc
    by_cases h : n = 0
    · simp [natCharsCore, h]
    · simp only [natCharsCore, h, if_false]
      rw [ih (n / 10) (digitChar (n % 10) :: acc), ih (n / 10) [digitChar (n % 10)]]
      simp

theorem natCharsCore_length (fuel : Nat) :
    ∀ k n acc, n < 10 ^ k → (natCharsCore fuel n acc).length ≤ k + acc.length := by
  induction fuel with
  | zero => intro k n acc _; simp only [natCharsCore]; omega
  | succ fuel ih =>
    intro k n acc hn
    by_cases h : n = 0
    · simp [natCharsCore, h]
    · match k with
      | 0 => omega
      | k + 1 =>
        simp only [natCharsCore, h, if_false]
        have hdiv : n / 10 < 10 ^ k := by
          rw [Nat.div_lt_iff_lt_mul (by omega)]
          calc n < 10 ^ (k + 1) := hn
          _ = 10 ^ k * 10 := by rw [Nat.pow_succ]
        have := ih k (n / 10) (digitChar (n % 10) :: acc) hdiv
        simp at this
        omega

theorem natCharsCore_digits (fuel : Nat) :
    ∀ n acc, (∀ c ∈ acc, c.isDigit = true) →
      ∀ c ∈ natCharsCore fuel n acc, c.isDigit = true := by
  induction fuel with
  | zero => intro n acc hacc; simpa [natCharsCore] using hacc
  | succ fuel ih =>
    intro n acc hacc
    by_cases h : n = 0
    · simpa [natCharsCore, h] using hacc
    · simp only [natCharsCore, h, if_false]
      refine ih (n / 10) _ ?_
      intro c hc
      rcases List.mem_cons.mp hc with hc | hc
      · rw [hc]; exact digitChar_isDigit _
      · exact hacc c hc

theorem digitsValFrom_append (a : Nat) (xs ys : Chars) :
    digitsValFrom a (xs ++ ys) = digitsValFrom (digitsValFrom a xs) ys := by
  simp [digitsValFrom, List.foldl_append]

theorem natCharsCore_val (fuel : Nat) :
    ∀ n a, n < 10 ^ fuel →
      digitsValFrom a (natCharsCore fuel n []) =
        a * 10 ^ (natCharsCore fuel n []).length + n := by
  induction fuel with
  | zero =>
    intro n a hn
    have : n = 0 := by omega
    simp [natCharsCore, digitsValFrom, this]
  | succ fuel ih =>
    intro n a hn
    by_cases h : n = 0
    · simp [natCharsCore, h, digitsValFrom]
    · have hdiv : n / 10 < 10 ^ fuel := by
        rw [Nat.div_lt_iff_lt_mul (by omega)]
        calc n < 10 ^ (fuel + 1) := hn
        _ = 10 ^ fuel * 10 := by rw [Nat.pow_succ]
      have hstep : natCharsCore (fuel + 1) n [] =
          natCharsCore fuel (n / 10) [] ++ [digitChar (n % 10)] := by
        simp only [natCharsCore, h, if_false]
        exact natCharsCore_acc fuel (n / 10) [digitChar (n % 10)]
      rw [hstep, digitsValFrom_append]
      have hd : digitsValFrom (digitsValFrom a (natCharsCore fuel (n / 10) []))
          [digitChar (n % 10)] =
          digitsValFrom a (natCharsCore fuel (n / 10) []) * 10 + n % 10 := by
        simp [digitsValFrom, charVal_digitChar (n % 10) (Nat.mod_lt n (by omega))]
      rw [hd, ih (n / 10) a hdiv]
      have hlen : (natCharsCore fuel (n / 10) [] ++ [digitChar (n % 10)]).length
          = (natCharsCore fuel (n / 10) []).length + 1 := by simp
      rw [hlen, Nat.pow_succ]
      have hdm : 10 * (n / 10) + n % 10 = n := Nat.div_add_mod n 10
      ring_nf
      ring_nf at hdm ⊢
      omega

theorem digitsValFrom_replicate_zero (k : Nat) :
    ∀ a, digitsValFrom a (List.replicate k '0') = a * 10 ^ k := by
  induction k with
  | zero => intro a; simp [digitsValFrom]
  | succ k ih =>
    intro a
    have : List.replicate (k + 1) '0' = '0' :: List.replicate k '0' := rfl
    rw [this]
    have hstep : digitsValFrom a ('0' :: List.replicate k '0')
        = digitsValFrom (a * 10) (List.replicate k '0') := by
      simp [digitsValFrom, charVal]
    rw [hstep, ih (a * 10), Nat.pow_succ]
    ring

theorem pad9_spec (n : Nat) (hn : n < 1000000000) :
    (pad9 n).length = 9 ∧ (∀ c ∈ pad9 n, c.isDigit = true) ∧ digitsVal (pad9 n) = n := by
  have hlen : (natChars n).length ≤ 9 := by
    have := natCharsCore_length 12 9 n [] (by norm_num; omega)
    simpa [natChars] using this
  refine ⟨?_, ?_, ?_⟩
  · simp only [pad9, List.length_append, List.length_replicate]
    omega
  · intro c hc
    rcases List.mem_append.mp hc with hc | hc
    · rw [List.eq_of_mem_replicate hc]; rfl
    · exact natCharsCore_digits 12 n [] (by simp) c hc
  · have hval : digitsValFrom 0 (natChars n) = n := by
      have h12 : n < 10 ^ 12 := by norm_num; omega
      have := natCharsCore_val 12 n 0 h12
      simpa [natChars] using this
    simp only [digitsVal, pad9, digitsValFrom_append, digitsValFrom_replicate_zero]
    simpa using hval

/-! ### Claim C3 -/

/-- Claim C3 counterexample: the set-target-position command issued by a
move (the command MoveFocuser(uint32_t) writes before the start-motion
command) encodes target 42 as the SN opcode string, not the SP string the
claim names: it is ":SN000000042#" and differs from ":SP000000042#". -/
theorem settarget_opcode_counterexample :
    (MoveFocuserPos 42 st0 [some [], some []]).tr.head? = some ((":SN000000042#").toList) ∧
    (":SN000000042#").toList ≠ (":SP000000042#").toList := by decide

/-- Claim C3 as amended: for every valid position value (at most the
1000000 position maximum), the move's set-target-position command is the
opcode SN followed by the value as exactly 9 zero-padded decimal digits and
a '#' terminator, and the same 9-digit zero-padded format with opcode SP is
the SyncFocuser (set current position) command. -/
theorem settarget_sync_9digit_encoding (n : Nat) (hn : n ≤ 1000000) :
    (∀ st sc, (SyncFocuser n st sc).tr = [cmdSP n]) ∧
    (∀ st sc, (MoveFocuserPos n st sc).tr.head? = some (cmdSN n)) ∧
    cmdSP n = ':' :: 'S' :: 'P' :: (pad9 n ++ ['#']) ∧
    cmdSN n = ':' :: 'S' :: 'N' :: (pad9 n ++ ['#']) ∧
    (pad9 n).length = 9 ∧
    (∀ c ∈ pad9 n, c.isDigit = true) ∧
    digitsVal (pad9 n) = n := by
  obtain ⟨h1, h2, h3⟩ := pad9_spec n (by omega)
  refine ⟨?_, ?_, rfl, rfl, h1, h2, h3⟩
  · intro st sc
    simp [SyncFocuser, setOp_eq]
  · intro st sc
    rw [MoveFocuserPos_eq]
    split <;> rfl

/-- Claim C3 witness: the amended encoding theorem evaluated at position
42, whose sync command is the literal ":SP000000042#". -/
theorem settarget_sync_9digit_encoding_witness :
    (42 ≤ 1000000 ∧ digitsVal (pad9 42) = 42) ∧ cmdSP 42 = (":SP000000042#").toList :=
  ⟨⟨by decide, (settarget_sync_9digit_encoding 42 (by decide)).2.2.2.2.2.2⟩, by decide⟩

/-! ### Substring search facts -/

theorem beginsWith_iff (p : Chars) : ∀ s, beginsWith p s = true ↔ ∃ r, s = p ++ r := by
  induction p with
  | nil => intro s; simp [beginsWith]
  | cons pc ps ih =>
    intro s
    match s with
    | [] => simp [beginsWith]
    | c :: cs =>
      by_cases hpc : pc = c
      · subst hpc
        simp [beginsWith, ih cs]
      · simp [beginsWith, hpc, Ne.symm hpc]

theorem containsPat_iff (p : Chars) : ∀ s, containsPat p s = true ↔ ∃ l r, s = l ++ p ++ r := by
  intro s
  induction s with
  | nil =>
    simp [containsPat, beginsWith_iff]
  | cons c cs ih =>
    simp only [containsPat, Bool.or_eq_true, beginsWith_iff, ih]
    constructor
    · rintro (⟨r, hr⟩ | ⟨l, r, hlr⟩)
      · exact ⟨[], r, by simpa using hr⟩
      · exact ⟨c :: l, r, by simp [hlr]⟩
    · rintro ⟨l, r, hlr⟩
      match l with
      | [] => exact Or.inl ⟨r, by simpa using hlr⟩
      | a :: l =>
        right
        have h2 : cs = l ++ (p ++ r) := by
          simp at hlr
          exact hlr.2
        exact ⟨l, r, by rw [List.append_assoc]; exact h2⟩

/-! ### Claim C4 -/

/-- Claim C4 counterexample: the payload "11#" is none of "1#", "01#" or
"0#", so the claim requires the parser to return false with a logged error
on it, but the strstr-based parser returns true with no error. -/
theorem isMoving_true_beyond_expected_payloads :
    isMovingParse (("11#").toList) = (true, false) ∧
    (("11#").toList) ≠ (("1#").toList) ∧
    (("11#").toList) ≠ (("01#").toList) ∧
    (("11#").toList) ≠ (("0#").toList) := by decide

/-- Claim C4 as amended: the is-moving parser returns true (with no error)
exactly for the payloads containing "1#" as a substring, which includes
"1#" and "01#" but also payloads such as "11#"; it returns false without
error exactly for the remaining payloads containing "0#" as a substring
(among them "0#"); and it returns false with a logged error exactly for
payloads containing neither. -/
theorem isMovingParse_substring_classification (res : Chars) :
    ((isMovingParse res).1 = true ↔ ∃ l r, res = l ++ ['1', '#'] ++ r) ∧
    (isMovingParse res = (false, false) ↔
      (¬∃ l r, res = l ++ ['1', '#'] ++ r) ∧ ∃ l r, res = l ++ ['0', '#'] ++ r) ∧
    (isMovingParse res = (false, true) ↔
      (¬∃ l r, res = l ++ ['1', '#'] ++ r) ∧ ¬∃ l r, res = l ++ ['0', '#'] ++ r) := by
  have c1 := containsPat_iff (['1', '#']) res
  have c0 := containsPat_iff (['0', '#']) res
  simp only [← c1, ← c0]
  cases hb1 : containsPat ['1', '#'] res <;> cases hb0 : containsPat ['0', '#'] res <;>
    simp [isMovingParse, hb1, hb0]

/-! ### Facts about the %d parser -/

theorem parseUDigitsAux_spec (ds : Chars) :
    ∀ r acc, (∀ c ∈ ds, c.isDigit = true) → noLeadDigit r = true →
      parseUDigitsAux acc (ds ++ r) = (digitsValFrom acc ds, r) := by
  induction ds with
  | nil =>
    intro r acc _ hr
    match r with
    | [] => simp [parseUDigitsAux, digitsValFrom]
    | c :: cs =>
      have hc : c.isDigit = false := by simpa [noLeadDigit] using hr
      simp [parseUDigitsAux, hc, digitsValFrom]
  | cons d ds ih =>
    intro r acc hds hr
    have hd : d.isDigit = true := hds d (by simp)
    simp only [List.cons_append, parseUDigitsAux, hd, if_true, List.append_eq]
    rw [ih r (acc * 10 + charVal d) (fun c hc => hds c (by simp [hc])) hr]
    simp [digitsValFrom]

theorem parseUDigits_spec (ds r : Chars) (hne : ds ≠ [])
    (hds : ∀ c ∈ ds, c.isDigit = true) (hr : noLeadDigit r = true) :
    parseUDigits (ds ++ r) = some (digitsVal ds, r) := by
  match ds with
  | [] => exact absurd rfl hne
  | d :: ds2 =>
    have hd : d.isDigit = true := hds d (by simp)
    simp only [List.cons_append, parseUDigits, hd, if_true]
    rw [parseUDigitsAux_spec ds2 r (charVal d) (fun c hc => hds c (by simp [hc])) hr]
    simp [digitsVal, digitsValFrom]

theorem parseCDec_digits (ds r : Chars) (hne : ds ≠ [])
    (hds : ∀ c ∈ ds, c.isDigit = true) (hr : noLeadDigit r = true) :
    parseCDec (ds ++ r) = some ((digitsVal ds : Int), r) := by
  match ds with
  | [] => exact absurd rfl hne
  | d :: ds2 =>
    have hd : d.isDigit = true := hds d (by simp)
    have hminus : ¬d = '-' := by
      intro hcontra
      rw [hcontra] at hd
      exact absurd hd (by decide)
    have hplus : ¬d = '+' := by
      intro hcontra
      rw [hcontra] at hd
      exact absurd hd (by decide)
    simp only [List.cons_append, parseCDec, hminus, hplus, if_false]
    rw [show (d :: (ds2 ++ r)) = ((d :: ds2) ++ r) from rfl,
      parseUDigits_spec (d :: ds2) r hne hds hr]
    rfl

theorem parseCDec_neg_digits (ds r : Chars) (hne : ds ≠ [])
    (hds : ∀ c ∈ ds, c.isDigit = true) (hr : noLeadDigit r = true) :
    parseCDec ('-' :: (ds ++ r)) = some (-(digitsVal ds : Int), r) := by
  simp only [parseCDec, if_true]
  rw [parseUDigits_spec ds r hne hds hr]
  rfl

/-! ### Claim C5 -/

/-- Claim C5: the fixed-point decoder shared by the temperature reads
parses a payload of the form int dot int (followed by anything that does
not extend the fractional digits, such as the '#' terminator) as
wholepart + fractpart / 10 in truncating integer division, so the whole
digits of "21.5#" decode to 21 + 5 / 10 = 21, and a multi-digit fraction
contributes fractpart / 10 rather than the conventional decimal value. -/
theorem fixedPointParse_truncating (neg : Bool) (ds1 ds2 rest : Chars)
    (h1ne : ds1 ≠ []) (h1d : ∀ c ∈ ds1, c.isDigit = true)
    (h2ne : ds2 ≠ []) (h2d : ∀ c ∈ ds2, c.isDigit = true)
    (hrest : noLeadDigit rest = true) :
    fixedPointParse ((if neg then ['-'] else []) ++ ds1 ++ '.' :: (ds2 ++ rest))
      = some ((if neg then -(digitsVal ds1 : Int) else (digitsVal ds1 : Int))
          + Int.tdiv (digitsVal ds2) 10) := by
  have hdot : noLeadDigit ('.' :: (ds2 ++ rest)) = true := rfl
  have hf := parseCDec_digits ds2 rest h2ne h2d hrest
  cases neg
  · have hw := parseCDec_digits ds1 ('.' :: (ds2 ++ rest)) h1ne h1d hdot
    show fixedPointParse (ds1 ++ '.' :: (ds2 ++ rest))
      = some ((digitsVal ds1 : Int) + Int.tdiv (digitsVal ds2) 10)
    simp only [fixedPointParse, hw, hf]
  · have hw := parseCDec_neg_digits ds1 ('.' :: (ds2 ++ rest)) h1ne h1d hdot
    show fixedPointParse ('-' :: (ds1 ++ '.' :: (ds2 ++ rest)))
      = some (-(digitsVal ds1 : Int) + Int.tdiv (digitsVal ds2) 10)
    simp only [fixedPointParse, hw, hf]

/-- Claim C5 witness: the decoder evaluated on "21.5#" gives exactly 21,
and on the multi-digit fraction "21.55#" gives 21 + 55 / 10 = 26. -/
theorem fixedPointParse_truncating_witness :
    fixedPointParse (("21.5#").toList) = some 21 ∧
    fixedPointParse (("21.55#").toList) = some 26 := by
  constructor
  · exact (fixedPointParse_truncating false (['2', '1']) (['5']) (['#'])
      (by decide) (by decide) (by decide) (by decide) (by decide)).trans (by decide)
  · exact (fixedPointParse_truncating false (['2', '1']) (['5', '5']) (['#'])
      (by decide) (by decide) (by decide) (by decide) (by decide)).trans (by decide)

/-! ### Claim C2 -/

theorem int32ofUInt32_small (n : Nat) (h : n < 2147483648) : int32ofUInt32 n = (n : Int) := by
  unfold int32ofUInt32
  have hm : n % 4294967296 = n := Nat.mod_eq_of_lt (by omega)
  rw [hm, if_pos]
  exact_mod_cast h

theorem uint32ofInt_small (i : Int) (h0 : 0 ≤ i) (h1 : i < 4294967296) :
    ((uint32ofInt i : Nat) : Int) = i := by
  unfold uint32ofInt
  rw [Int.emod_eq_of_lt h0 h1]
  exact Int.toNat_of_nonneg h0

/-- Claim C2: a relative move of ticks in direction dir (for any in-range
request: ticks within the relative-move maximum of 1000000, nonnegative
position minimum, ordered bounds within the configured maximum, so that
the source's 32-bit conversions are value-preserving) commands exactly the
position clamp(current + sign(dir) * ticks, min, max): the first command
written is the SN encoding of that clamped value, whose uint32 image is the
clamped integer itself; and when both commands succeed the move returns
IPS_BUSY and reports the REQUESTED tick count as the relative magnitude
(not the clamped delta), while any command failure yields IPS_ALERT. -/
theorem MoveRelFocuser_clamped_command (dir : FocusDirection) (ticks : Nat)
    (st : DriverState) (sc : Script)
    (hticks : ticks ≤ 1000000) (hmin0 : 0 ≤ st.focusAbsPosMin)
    (hminmax : st.focusAbsPosMin ≤ st.focusAbsPosMax) (hmax : st.focusAbsPosMax ≤ 1000000) :
    (MoveRelFocuser dir ticks st sc).tr.head?
      = some (cmdSN (clampInt st.focusAbsPosMin st.focusAbsPosMax
          (st.focusAbsPosValue +
            (if dir = FocusDirection.FOCUS_INWARD then -(ticks : Int) else (ticks : Int)))).toNat)
    ∧ ((clampInt st.focusAbsPosMin st.focusAbsPosMax
          (st.focusAbsPosValue +
            (if dir = FocusDirection.FOCUS_INWARD
              then -(ticks : Int) else (ticks : Int)))).toNat : Int)
        = clampInt st.focusAbsPosMin st.focusAbsPosMax
            (st.focusAbsPosValue +
              (if dir = FocusDirection.FOCUS_INWARD then -(ticks : Int) else (ticks : Int)))
    ∧ (scOk sc 0 = true → scOk sc 1 = true →
        (MoveRelFocuser dir ticks st sc).val = IPState.IPS_BUSY ∧
        (MoveRelFocuser dir ticks st sc).st.focusRelPosValue = (ticks : Int) ∧
        (MoveRelFocuser dir ticks st sc).st.focusRelPosState = IPState.IPS_BUSY)
    ∧ (¬(scOk sc 0 = true ∧ scOk sc 1 = true) →
        (MoveRelFocuser dir ticks st sc).val = IPState.IPS_ALERT) := by
  have hint : int32ofUInt32 ticks = (ticks : Int) := int32ofUInt32_small ticks (by omega)
  have harg : (if dir = FocusDirection.FOCUS_INWARD then (-1 : Int) else 1) * int32ofUInt32 ticks
      = (if dir = FocusDirection.FOCUS_INWARD then -(ticks : Int) else (ticks : Int)) := by
    rw [hint]
    cases dir <;> simp
  have hlo : 0 ≤ clampInt st.focusAbsPosMin st.focusAbsPosMax
      (st.focusAbsPosValue +
        (if dir = FocusDirection.FOCUS_INWARD then -(ticks : Int) else (ticks : Int))) := by
    unfold clampInt
    omega
  have hhi : clampInt st.focusAbsPosMin st.focusAbsPosMax
      (st.focusAbsPosValue +
        (if dir = FocusDirection.FOCUS_INWARD then -(ticks : Int) else (ticks : Int)))
      < 4294967296 := by
    unfold clampInt
    omega
  have hcast := uint32ofInt_small _ hlo hhi
  have htoNat : uint32ofInt (clampInt st.focusAbsPosMin st.focusAbsPosMax
      (st.focusAbsPosValue +
        (if dir = FocusDirection.FOCUS_INWARD then -(ticks : Int) else (ticks : Int))))
      = (clampInt st.focusAbsPosMin st.focusAbsPosMax
          (st.focusAbsPosValue +
            (if dir = FocusDirection.FOCUS_INWARD
              then -(ticks : Int) else (ticks : Int)))).toNat := by
    unfold uint32ofInt at hcast ⊢
    omega
  refine ⟨?_, by omega, ?_, ?_⟩
  · simp only [MoveRelFocuser, harg, htoNat, MoveFocuserPos_eq]
    split <;> split <;> rfl
  · intro h0 h1
    simp only [MoveRelFocuser, harg, htoNat, MoveFocuserPos_eq, h0, h1]
    simp
  · intro hfail
    simp only [MoveRelFocuser, harg, htoNat, MoveFocuserPos_eq]
    rcases hb0 : scOk sc 0 <;> rcases hb1 : scOk sc 1 <;> simp_all

/-- Claim C2 witness: from position 10 with bounds 0 and 1000000, an inward
move of 50 ticks commands position 0 (the SN encoding of 0) and on success
reports relative magnitude 50. -/
theorem MoveRelFocuser_clamped_command_witness :
    (MoveRelFocuser FocusDirection.FOCUS_INWARD 50 ({ st0 with focusAbsPosValue := 10 })
        [some [], some []]).tr.head? = some (cmdSN 0) ∧
    (MoveRelFocuser FocusDirection.FOCUS_INWARD 50 ({ st0 with focusAbsPosValue := 10 })
        [some [], some []]).st.focusRelPosValue = 50 ∧
    (MoveRelFocuser FocusDirection.FOCUS_INWARD 50 ({ st0 with focusAbsPosValue := 10 })
        [some [], some []]).val = IPState.IPS_BUSY := by
  have h := MoveRelFocuser_clamped_command FocusDirection.FOCUS_INWARD 50
    ({ st0 with focusAbsPosValue := 10 }) [some [], some []]
    (by decide) (by decide) (by decide) (by decide)
  obtain ⟨hv, hrel, hrs⟩ := h.2.2.1 (by decide) (by decide)
  exact ⟨by decide, by simpa using hrel, hv⟩

/-! ### Claim C9 -/

/-- Claim C9: the GotoHome handler aborts first exactly when the device
reports it is moving and then issues the home command (first two
conjuncts); but on a failed home command the source resets the home switch
and raises IPS_ALERT on the COIL POWER property, leaving the home
property's own status untouched (remaining conjuncts, evaluated at a
not-moving state whose home command fails): the home status stays
IPS_IDLE while coilPowerState becomes IPS_ALERT, contradicting the claim
that the Alert is raised on the home control. -/
theorem gotoHome_alert_raised_on_coilpower :
    (gotoHomeBranch st0 [some (("1#").toList), some [], some []]).tr
      = [cmdGI, cmdFQ, cmdHO] ∧
    (gotoHomeBranch st0 [some (("0#").toList), some []]).tr = [cmdGI, cmdHO] ∧
    (gotoHomeBranch ({ st0 with gotoHomeSwitch := true })
        [some (("0#").toList), none]).val = false ∧
    (gotoHomeBranch ({ st0 with gotoHomeSwitch := true })
        [some (("0#").toList), none]).st.gotoHomeSwitch = false ∧
    (gotoHomeBranch ({ st0 with gotoHomeSwitch := true })
        [some (("0#").toList), none]).st.coilPowerState = IPState.IPS_ALERT ∧
    (gotoHomeBranch ({ st0 with gotoHomeSwitch := true })
        [some (("0#").toList), none]).st.gotoHomeState = IPState.IPS_IDLE := by decide

/-! ### Claim C8 -/

/-- Claim C8 counterexample: on a poll tick with an absolute move busy, the
device reporting position 3 (within the 5-tick threshold of the last
reported position 0) and not moving, the completion branch still publishes
the position property and updates lastPos, so the position report is NOT
suppressed even though the delta is at most 5, contradicting the claim's
"suppressed exactly when" on this tick. -/
theorem TimerHit_busy_reports_within_threshold :
    Event.reportAbsPos ∈ (TimerHit ({ st0 with focusAbsPosState := IPState.IPS_BUSY })
      [some (("3#").toList), some (("0.0#").toList), some (("0#").toList)]).ev ∧
    fabsInt (({ st0 with focusAbsPosState := IPState.IPS_BUSY } : DriverState).lastPos - 3) ≤ 5 ∧
    (TimerHit ({ st0 with focusAbsPosState := IPState.IPS_BUSY })
        [some (("3#").toList), some (("0.0#").toList), some (("0#").toList)]).st.lastPos
      ≠ ({ st0 with focusAbsPosState := IPState.IPS_BUSY } : DriverState).lastPos := by
  have hp : parseCInt (("3#").toList) = some (3, (("#").toList)) := by decide
  have ht : fixedPointParse (("0.0#").toList) = some 0 := by decide
  have hm : isMovingParse (("0#").toList) = (false, false) := by decide
  refine ⟨?_, by decide, ?_⟩ <;>
    · simp only [TimerHit, readPosition, readTemperature, isMoving, queryOp, hp, ht, hm]
      norm_num [st0, fabsInt, fabsRat]

/-- Claim C8 as amended: on a poll tick where both reads succeed and no
absolute or relative move is busy, the position report is suppressed
exactly when the absolute position moved by at most 5 from lastPos, the
temperature report is suppressed exactly when the temperature changed by
less than 0.5 from lastTemperature, and a suppressed report leaves the
corresponding last-reported value unchanged.  (On a tick where a busy move
completes, the position property is additionally republished regardless of
the delta, as the counterexample shows.) -/
theorem TimerHit_report_hysteresis (st : DriverState) (pPay tPay : Chars) (rest : Script)
    (newPos : Int) (pr : Chars) (newT : Int)
    (hp : parseCInt pPay = some (newPos, pr))
    (ht : fixedPointParse tPay = some newT)
    (hA : st.focusAbsPosState ≠ IPState.IPS_BUSY)
    (hR : st.focusRelPosState ≠ IPState.IPS_BUSY) :
    (Event.reportAbsPos ∈ (TimerHit st (some pPay :: some tPay :: rest)).ev
      ↔ 5 < fabsInt (st.lastPos - newPos)) ∧
    (Event.reportTemperature ∈ (TimerHit st (some pPay :: some tPay :: rest)).ev
      ↔ (1 : Rat) / 2 ≤ fabsRat ((st.lastTemperature : Rat) - (newT : Rat))) ∧
    (¬5 < fabsInt (st.lastPos - newPos) →
      (TimerHit st (some pPay :: some tPay :: rest)).st.lastPos = st.lastPos) ∧
    (¬(1 : Rat) / 2 ≤ fabsRat ((st.lastTemperature : Rat) - (newT : Rat)) →
      (TimerHit st (some pPay :: some tPay :: rest)).st.lastTemperature
        = st.lastTemperature) := by
  have e1 : readPosition st (some pPay :: some tPay :: rest)
      = ⟨true, { st with focusAbsPosValue := newPos }, [cmdGP], [], some tPay :: rest⟩ := by
    simp [readPosition, queryOp, hp]
  have e2 : ∀ s : DriverState, readTemperature s (some tPay :: rest)
      = ⟨true, { s with temperatureValue := newT }, [cmdGT], [], rest⟩ := by
    intro s
    simp [readTemperature, queryOp, ht]
  by_cases hpos : 5 < fabsInt (st.lastPos - newPos) <;>
    by_cases htemp :
      (2 : Rat)⁻¹ ≤ fabsRat ((st.lastTemperature : Rat) - (newT : Rat)) <;>
    simp [TimerHit, e1, e2, hpos, htemp, hA, hR, one_div]

/-- Claim C8 witness: the amended hysteresis theorem evaluated on an idle
state at last position 0 and last temperature 0, with the device reporting
position 100 and temperature 2.0: both deltas exceed their thresholds, so
both reports are published. -/
theorem TimerHit_report_hysteresis_witness :
    Event.reportAbsPos
      ∈ (TimerHit st0 [some (("100#").toList), some (("2.0#").toList)]).ev ∧
    Event.reportTemperature
      ∈ (TimerHit st0 [some (("100#").toList), some (("2.0#").toList)]).ev := by
  have h := TimerHit_report_hysteresis st0 (("100#").toList) (("2.0#").toList) []
    100 (("#").toList) 2 (by decide) (by decide) (by decide) (by decide)
  refine ⟨h.1.mpr (by decide), h.2.1.mpr ?_⟩
  norm_num [st0, fabsRat]

end AstroStep
